import Mathlib

/-!
# Verification of the OmniTAK JNI callback registry and dispatch bridge

Shallow embedding of `src/modules/omnitak_mobile/android/native/omnitak_jni.cpp`:
the callback registry (`g_callbacks`, a `std::map<uint64_t, CallbackContext>`
guarded by `g_callbacks_mutex`), the cross-runtime dispatch bridge
(`cot_callback_bridge`) and the JNI entry points that mutate the registry
(`nativeRegisterCallback`, `nativeUnregisterCallback`, `nativeDisconnect`,
`nativeShutdown`) together with the pass-through entry points
(`nativeInit`, `nativeConnect`, `nativeSendCot`, `nativeGetStatus`,
`nativeVersion`).

JNI objects are modelled by identifiers (`Nat`); a JNI global reference records
its allocation identity and the object it refers to.  Calls into the external
native core (`omnitak_*`) are opaque: their return values are parameters of the
embedded entry points, and the call itself is recorded in an action trace.
Each operation also records in its trace the mutex acquire/release pairs,
registry accesses, global-reference management, thread attach/detach, and
callback invocations, so that locking discipline, reference lifetimes and
delivery counts can be stated as properties of the trace.
-/

namespace OmniTakJni

/-- An opaque `JavaVM*` handle (`0` models `nullptr`). -/
abbrev JavaVMRef := Nat

/-- A JNI global reference: its allocation identity (`NewGlobalRef` call
number) and the Java object it refers to. -/
structure GlobalRef where
  refId : Nat
  target : Nat
deriving Repr, DecidableEq

/-- `CallbackContext` from `omnitak_jni.cpp`: the stored `JavaVM*` and the
global reference to the `OmniTAKNativeBridge` instance. -/
structure CallbackContext where
  jvm : JavaVMRef
  bridge_instance : GlobalRef
deriving Repr, DecidableEq

/-- The external core functions reachable from this file (`omnitak_*`). -/
inductive CoreFn where
  | coreInit
  | coreShutdown
  | coreConnect
  | coreDisconnect
  | coreSendCot
  | coreRegisterCallback
  | coreUnregisterCallback
  | coreGetStatus
  | coreVersion
deriving Repr, DecidableEq

/-- Observable actions of one bridge operation, in program order. -/
inductive Action where
  | lockAcquire
  | lockRelease
  | registryLookup (id : Nat)
  | registryStore (id : Nat)
  | registryErase (id : Nat)
  | registryClear
  | newGlobalRef (r : GlobalRef)
  | deleteGlobalRef (r : GlobalRef)
  | attachThread
  | detachThread
  | invokeCallback (targetRef : GlobalRef) (id : Nat) (payload : Option String)
  | exceptionCleared
  | coreCall (f : CoreFn)
deriving Repr, DecidableEq

/-- `std::map::find`: the registry is an association list with unique keys. -/
def mapFind (m : List (Nat × CallbackContext)) (k : Nat) : Option CallbackContext :=
  match m with
  | [] => none
  | (k', v) :: rest => if k' = k then some v else mapFind rest k

/-- `std::map::operator[]=`: overwrite the entry for `k` if present,
otherwise add one. -/
def mapInsert (m : List (Nat × CallbackContext)) (k : Nat) (v : CallbackContext) :
    List (Nat × CallbackContext) :=
  match m with
  | [] => [(k, v)]
  | (k', v') :: rest =>
      if k' = k then (k, v) :: rest else (k', v') :: mapInsert rest k v

/-- `std::map::erase` of the entry for `k` (keys are unique). -/
def mapErase (m : List (Nat × CallbackContext)) (k : Nat) :
    List (Nat × CallbackContext) :=
  match m with
  | [] => []
  | (k', v') :: rest => if k' = k then rest else (k', v') :: mapErase rest k

/-- The bridge's global mutable state: `g_callbacks`, `g_jvm`, and the
allocator for fresh global-reference identities. -/
structure BridgeState where
  g_callbacks : List (Nat × CallbackContext)
  g_jvm : JavaVMRef
  nextGlobalRef : Nat
deriving Repr, DecidableEq

/-- The calling OS thread's JVM attachment state. -/
structure JniThread where
  attached : Bool
deriving Repr, DecidableEq

/-- Environment choices the JVM makes during one dispatch: whether `GetEnv`
fails on an attached thread, whether `AttachCurrentThread` fails, whether
`GetMethodID` fails to resolve `onCotReceived`, and whether the invoked
callback throws a Java exception. -/
structure DispatchEnv where
  getEnvFails : Bool
  attachFails : Bool
  methodMissing : Bool
  callbackThrows : Bool
deriving Repr, DecidableEq

/-- `jstring_to_string`: a null `jstring` becomes `""`. -/
def jstring_to_string (jstr : Option String) : String :=
  match jstr with
  | none => ""
  | some s => s

/-- `string_to_jstring`: a null `const char*` becomes a null `jstring`,
otherwise `NewStringUTF`. -/
def string_to_jstring (str : Option String) : Option String :=
  match str with
  | none => none
  | some s => some s

/-- Result of one `cot_callback_bridge` call. -/
structure DispatchResult where
  state : BridgeState
  thread : JniThread
  trace : List Action
  exceptionPending : Bool
deriving Repr, DecidableEq

/-- The part of `cot_callback_bridge` that runs once a `JNIEnv*` has been
obtained: method resolution, payload conversion, invocation, exception
check/clear, local-reference cleanup, and conditional detach. -/
def dispatchAttached (st : BridgeState) (th : JniThread) (de : DispatchEnv)
    (context : CallbackContext) (connection_id : Nat) (cot_xml : Option String)
    (pre : List Action) (needDetach : Bool) : DispatchResult :=
  if de.methodMissing then
    -- GetMethodID returned null: log, DeleteLocalRef, detach if needed, return
    { state := st
      thread := if needDetach then { attached := false } else th
      trace := pre ++ (if needDetach then [Action.detachThread] else [])
      exceptionPending := false }
  else
    let jCotXml := string_to_jstring cot_xml
    -- CallVoidMethod(context.bridge_instance, onCotReceived, connection_id, jCotXml)
    let pendingAfterCall := de.callbackThrows
    -- if (env->ExceptionCheck()) { ExceptionDescribe; ExceptionClear; }
    let pendingAfterCheck := if pendingAfterCall then false else pendingAfterCall
    let clearTrace := if pendingAfterCall then [Action.exceptionCleared] else []
    { state := st
      thread := if needDetach then { attached := false } else th
      trace := pre ++ [Action.invokeCallback context.bridge_instance connection_id jCotXml]
                ++ clearTrace
                ++ (if needDetach then [Action.detachThread] else [])
      exceptionPending := pendingAfterCheck }

/-- `cot_callback_bridge(user_data, connection_id, cot_xml)`: registry lookup
under the mutex (value copy of the context), then JVM attach-if-needed,
method resolution, invocation, exception clearing, and detach-if-attached. -/
def cot_callback_bridge (st : BridgeState) (th : JniThread) (de : DispatchEnv)
    (connection_id : Nat) (cot_xml : Option String) : DispatchResult :=
  let pre : List Action :=
    [Action.lockAcquire, Action.registryLookup connection_id, Action.lockRelease]
  match mapFind st.g_callbacks connection_id with
  | none =>
      -- no callback context found: log and return
      { state := st, thread := th, trace := pre, exceptionPending := false }
  | some context =>
      if th.attached then
        if de.getEnvFails then
          -- GetEnv returned neither JNI_OK nor JNI_EDETACHED: log and return
          { state := st, thread := th, trace := pre, exceptionPending := false }
        else
          dispatchAttached st th de context connection_id cot_xml pre false
      else
        -- GetEnv returned JNI_EDETACHED: AttachCurrentThread
        if de.attachFails then
          -- failed to attach: log and return
          { state := st, thread := th, trace := pre, exceptionPending := false }
        else
          dispatchAttached st { attached := true } de context connection_id cot_xml
            (pre ++ [Action.attachThread]) true

/-- Result of a JNI entry point that returns a `jint` status. -/
structure OpResult where
  state : BridgeState
  result : Int
  trace : List Action
deriving Repr, DecidableEq

/-- Result of `nativeRegisterCallback`, also exposing the global reference it
allocated. -/
structure RegisterResult where
  state : BridgeState
  result : Int
  trace : List Action
  globalRef : GlobalRef
deriving Repr, DecidableEq

/-- `nativeRegisterCallback(env, thiz, connectionId)`: under the mutex,
`NewGlobalRef(thiz)`, build a `CallbackContext` from `g_jvm` and the new
reference and store it (overwriting any prior entry); then call
`omnitak_register_callback` and return its status.  `coreResult` models the
external core's return value. -/
def nativeRegisterCallback (st : BridgeState) (thiz : Nat) (connectionId : Nat)
    (coreResult : Int) : RegisterResult :=
  let globalRef : GlobalRef := { refId := st.nextGlobalRef, target := thiz }
  let context : CallbackContext := { jvm := st.g_jvm, bridge_instance := globalRef }
  let st' : BridgeState :=
    { st with
      g_callbacks := mapInsert st.g_callbacks connectionId context
      nextGlobalRef := st.nextGlobalRef + 1 }
  { state := st'
    result := coreResult
    trace := [Action.lockAcquire, Action.newGlobalRef globalRef,
              Action.registryStore connectionId, Action.lockRelease,
              Action.coreCall CoreFn.coreRegisterCallback]
    globalRef := globalRef }

/-- The cleanup block shared by `nativeUnregisterCallback` and
`nativeDisconnect`: under the mutex, find the entry, `DeleteGlobalRef` its
`bridge_instance` and erase it when present. -/
def cleanupCallbackEntry (st : BridgeState) (connectionId : Nat) :
    BridgeState × List Action :=
  match mapFind st.g_callbacks connectionId with
  | none =>
      (st, [Action.lockAcquire, Action.registryLookup connectionId, Action.lockRelease])
  | some context =>
      ({ st with g_callbacks := mapErase st.g_callbacks connectionId },
       [Action.lockAcquire, Action.registryLookup connectionId,
        Action.deleteGlobalRef context.bridge_instance,
        Action.registryErase connectionId, Action.lockRelease])

/-- `nativeUnregisterCallback(env, thiz, connectionId)`: call
`omnitak_unregister_callback`, then clean up the registry entry. -/
def nativeUnregisterCallback (st : BridgeState) (connectionId : Nat)
    (coreResult : Int) : OpResult :=
  let cleanup := cleanupCallbackEntry st connectionId
  { state := cleanup.1
    result := coreResult
    trace := Action.coreCall CoreFn.coreUnregisterCallback :: cleanup.2 }

/-- `nativeDisconnect(env, thiz, connectionId)`: call `omnitak_disconnect`,
then clean up the registry entry exactly like unregistration. -/
def nativeDisconnect (st : BridgeState) (connectionId : Nat)
    (coreResult : Int) : OpResult :=
  let cleanup := cleanupCallbackEntry st connectionId
  { state := cleanup.1
    result := coreResult
    trace := Action.coreCall CoreFn.coreDisconnect :: cleanup.2 }

/-- `nativeShutdown(env, thiz)`: under the mutex, `DeleteGlobalRef` every
entry's `bridge_instance` and clear the map; then call `omnitak_shutdown`. -/
def nativeShutdown (st : BridgeState) : BridgeState × List Action :=
  ({ st with g_callbacks := [] },
   Action.lockAcquire ::
     (st.g_callbacks.map (fun p => Action.deleteGlobalRef p.2.bridge_instance)
       ++ [Action.registryClear, Action.lockRelease,
           Action.coreCall CoreFn.coreShutdown]))

/-- `nativeInit(env, thiz)`: pass-through to `omnitak_init`. -/
def nativeInit (st : BridgeState) (coreResult : Int) : OpResult :=
  { state := st, result := coreResult, trace := [Action.coreCall CoreFn.coreInit] }

/-- `nativeConnect(env, thiz, host, port, protocol, useTls, certPem, keyPem,
caPem)`: convert the strings and pass through to `omnitak_connect`; the
returned connection id (`0` = failure) is the core's choice. -/
def nativeConnect (st : BridgeState) (host : Option String) (port : Nat)
    (protocol : Int) (useTls : Bool) (certPem keyPem caPem : Option String)
    (coreConnectionId : Nat) : BridgeState × Nat × List Action :=
  let hostStr := jstring_to_string host
  let _ := (hostStr, port, protocol, useTls, certPem, keyPem, caPem)
  (st, coreConnectionId, [Action.coreCall CoreFn.coreConnect])

/-- `nativeSendCot(env, thiz, connectionId, cotXml)`: convert the payload and
pass through to `omnitak_send_cot`. -/
def nativeSendCot (st : BridgeState) (connectionId : Nat) (cotXml : Option String)
    (coreResult : Int) : OpResult :=
  let cotXmlStr := jstring_to_string cotXml
  let _ := (connectionId, cotXmlStr)
  { state := st, result := coreResult, trace := [Action.coreCall CoreFn.coreSendCot] }

/-- The `ConnectionStatus` struct returned by `omnitak_get_status`. -/
structure ConnectionStatus where
  is_connected : Int
  messages_sent : Nat
  messages_received : Nat
  last_error_code : Int
deriving Repr, DecidableEq

/-- `nativeGetStatus(env, thiz, connectionId)`: pass through to
`omnitak_get_status`; on nonzero status (or failed class/constructor
resolution) return null, otherwise a `ConnectionStatusNative` object built
from the struct fields. -/
def nativeGetStatus (st : BridgeState) (connectionId : Nat) (coreResult : Int)
    (status : ConnectionStatus) (classFound ctorFound : Bool) :
    BridgeState × Option ConnectionStatus × List Action :=
  let _ := connectionId
  let statusObject : Option ConnectionStatus :=
    if coreResult ≠ 0 then none          -- failed to get status: return null
    else if ¬classFound then none        -- failed to find the class: return null
    else if ¬ctorFound then none         -- failed to find the constructor: return null
    else some status
  (st, statusObject, [Action.coreCall CoreFn.coreGetStatus])

/-- `nativeVersion(env, thiz)`: pass through to `omnitak_version` and convert
the returned C string. -/
def nativeVersion (st : BridgeState) (coreVersion : Option String) :
    BridgeState × Option String × List Action :=
  (st, string_to_jstring coreVersion, [Action.coreCall CoreFn.coreVersion])

/-- The callback invocations recorded in a trace, in order, each with the
global reference invoked on, the connection id and the converted payload. -/
def invocations (tr : List Action) : List (GlobalRef × Nat × Option String) :=
  match tr with
  | [] => []
  | Action.invokeCallback r id p :: rest => (r, id, p) :: invocations rest
  | _ :: rest => invocations rest

/-- How many times a trace releases (`DeleteGlobalRef`) a given reference. -/
def countReleases (tr : List Action) (r : GlobalRef) : Nat :=
  match tr with
  | [] => 0
  | Action.deleteGlobalRef r' :: rest =>
      (if r' = r then 1 else 0) + countReleases rest r
  | _ :: rest => countReleases rest r

/-- Actions that read or mutate the registry map. -/
def registryAction : Action → Bool
  | Action.registryLookup _ => true
  | Action.registryStore _ => true
  | Action.registryErase _ => true
  | Action.registryClear => true
  | _ => false

/-- Actions that cross into the managed runtime: thread attach, callback
invocation, thread detach. -/
def crossRuntimeAction : Action → Bool
  | Action.attachThread => true
  | Action.invokeCallback _ _ _ => true
  | Action.detachThread => true
  | _ => false

/-- Mutex discipline of a trace, starting at lock depth `depth`: releases are
balanced, every registry access happens with the mutex held, no
cross-runtime action happens with the mutex held, and the trace ends with
the mutex free. -/
def lockDiscipline (tr : List Action) (depth : Nat) : Bool :=
  match tr with
  | [] => depth == 0
  | a :: rest =>
      match a with
      | Action.lockAcquire => lockDiscipline rest (depth + 1)
      | Action.lockRelease => decide (depth ≠ 0) && lockDiscipline rest (depth - 1)
      | _ =>
          (if registryAction a then decide (0 < depth) else true)
            && (if crossRuntimeAction a then depth == 0 else true)
            && lockDiscipline rest depth

/-- One call to a public operation of the bridge, with all its inputs
(including the external core's chosen return value and the JVM's behavior
during dispatch). -/
inductive PublicOp where
  | opInit (coreResult : Int)
  | opConnect (host : Option String) (port : Nat) (protocol : Int) (useTls : Bool)
      (certPem keyPem caPem : Option String) (coreConnectionId : Nat)
  | opSendCot (id : Nat) (payload : Option String) (coreResult : Int)
  | opGetStatus (id : Nat) (coreResult : Int) (status : ConnectionStatus)
      (classFound ctorFound : Bool)
  | opVersion (coreVersion : Option String)
  | opDispatch (th : JniThread) (de : DispatchEnv) (id : Nat) (payload : Option String)
  | opRegister (thiz : Nat) (id : Nat) (coreResult : Int)
  | opUnregister (id : Nat) (coreResult : Int)
  | opDisconnect (id : Nat) (coreResult : Int)
  | opShutdown
deriving Repr, DecidableEq

/-- Run one public operation: the bridge state it leaves and the action trace
it produces. -/
def runOp (st : BridgeState) : PublicOp → BridgeState × List Action
  | PublicOp.opInit cr => ((nativeInit st cr).state, (nativeInit st cr).trace)
  | PublicOp.opConnect h p pr t c k ca cid =>
      ((nativeConnect st h p pr t c k ca cid).1, (nativeConnect st h p pr t c k ca cid).2.2)
  | PublicOp.opSendCot id p cr =>
      ((nativeSendCot st id p cr).state, (nativeSendCot st id p cr).trace)
  | PublicOp.opGetStatus id cr s cf ctf =>
      ((nativeGetStatus st id cr s cf ctf).1, (nativeGetStatus st id cr s cf ctf).2.2)
  | PublicOp.opVersion v => ((nativeVersion st v).1, (nativeVersion st v).2.2)
  | PublicOp.opDispatch th de id p =>
      ((cot_callback_bridge st th de id p).state, (cot_callback_bridge st th de id p).trace)
  | PublicOp.opRegister thiz id cr =>
      ((nativeRegisterCallback st thiz id cr).state, (nativeRegisterCallback st thiz id cr).trace)
  | PublicOp.opUnregister id cr =>
      ((nativeUnregisterCallback st id cr).state, (nativeUnregisterCallback st id cr).trace)
  | PublicOp.opDisconnect id cr =>
      ((nativeDisconnect st id cr).state, (nativeDisconnect st id cr).trace)
  | PublicOp.opShutdown => nativeShutdown st

/-- The operations that remove the registry entry for `id` in the code:
unregistration, disconnection, and global shutdown. -/
def removesEntry (op : PublicOp) (id : Nat) : Bool :=
  match op with
  | PublicOp.opUnregister id2 _ => id2 == id
  | PublicOp.opDisconnect id2 _ => id2 == id
  | PublicOp.opShutdown => true
  | _ => false

/-- Modelled from the spec: the operations the specification's lifecycle
sentence names as destroying the entry for `id` — only
`unregister_callback(id)` and global `shutdown()`. -/
def removesEntrySpec (op : PublicOp) (id : Nat) : Bool :=
  match op with
  | PublicOp.opUnregister id2 _ => id2 == id
  | PublicOp.opShutdown => true
  | _ => false

/-- Re-registration for the same id overwrites its entry (without removing
the key); no other operation does. -/
def overwritesEntry (op : PublicOp) (id : Nat) : Bool :=
  match op with
  | PublicOp.opRegister _ id2 _ => id2 == id
  | _ => false

/-! ## Helper lemmas about the registry map and the traces -/

theorem mapFind_insert_self (m : List (Nat × CallbackContext)) (k : Nat)
    (v : CallbackContext) : mapFind (mapInsert m k v) k = some v := by
  induction m with
  | nil => simp [mapInsert, mapFind]
  | cons hd tl ih =>
      obtain ⟨k', v'⟩ := hd
      by_cases h : k' = k
      · simp [mapInsert, mapFind, h]
      · simp [mapInsert, mapFind, h, ih]

theorem mapFind_insert_ne (m : List (Nat × CallbackContext)) (k k2 : Nat)
    (v : CallbackContext) (h : k ≠ k2) :
    mapFind (mapInsert m k v) k2 = mapFind m k2 := by
  induction m with
  | nil => simp [mapInsert, mapFind, h]
  | cons hd tl ih =>
      obtain ⟨k', v'⟩ := hd
      by_cases hk : k' = k
      · subst hk
        simp [mapInsert, mapFind, h]
      · simp [mapInsert, mapFind, hk, ih]

theorem mapFind_erase_ne (m : List (Nat × CallbackContext)) (k k2 : Nat)
    (h : k ≠ k2) : mapFind (mapErase m k) k2 = mapFind m k2 := by
  induction m with
  | nil => simp [mapErase, mapFind]
  | cons hd tl ih =>
      obtain ⟨k', v'⟩ := hd
      by_cases hk : k' = k
      · subst hk
        simp [mapErase, mapFind, h]
      · simp [mapErase, mapFind, hk, ih]

theorem mapFind_mem (m : List (Nat × CallbackContext)) (k : Nat)
    (v : CallbackContext) (h : mapFind m k = some v) : (k, v) ∈ m := by
  induction m with
  | nil => simp [mapFind] at h
  | cons hd tl ih =>
      obtain ⟨k', v'⟩ := hd
      by_cases hk : k' = k
      · subst hk
        simp [mapFind] at h
        simp [h]
      · simp [mapFind, hk] at h
        exact List.mem_cons_of_mem _ (ih h)

theorem invocations_append (a b : List Action) :
    invocations (a ++ b) = invocations a ++ invocations b := by
  induction a with
  | nil => simp [invocations]
  | cons hd tl ih => cases hd <;> simp [invocations, ih]

theorem countReleases_append (a b : List Action) (r : GlobalRef) :
    countReleases (a ++ b) r = countReleases a r + countReleases b r := by
  induction a with
  | nil => simp [countReleases]
  | cons hd tl ih => cases hd <;> (simp [countReleases, ih]; try omega)

/-- Dispatch never mutates the bridge state (the registry in particular). -/
theorem dispatch_state_eq (st : BridgeState) (th : JniThread) (de : DispatchEnv)
    (id : Nat) (p : Option String) :
    (cot_callback_bridge st th de id p).state = st := by
  obtain ⟨tha⟩ := th
  obtain ⟨ge, af, mm, ct⟩ := de
  cases hm : mapFind st.g_callbacks id <;>
    cases tha <;> cases ge <;> cases af <;> cases mm <;> cases ct <;>
      simp [cot_callback_bridge, dispatchAttached, hm]

/-- Dispatch restores the calling thread's attachment state on every path. -/
theorem dispatch_thread_eq (st : BridgeState) (th : JniThread) (de : DispatchEnv)
    (id : Nat) (p : Option String) :
    (cot_callback_bridge st th de id p).thread = th := by
  obtain ⟨tha⟩ := th
  obtain ⟨ge, af, mm, ct⟩ := de
  cases hm : mapFind st.g_callbacks id <;>
    cases tha <;> cases ge <;> cases af <;> cases mm <;> cases ct <;>
      simp [cot_callback_bridge, dispatchAttached, hm]

/-- Dispatch never returns with a Java exception pending. -/
theorem dispatch_no_pending (st : BridgeState) (th : JniThread) (de : DispatchEnv)
    (id : Nat) (p : Option String) :
    (cot_callback_bridge st th de id p).exceptionPending = false := by
  obtain ⟨tha⟩ := th
  obtain ⟨ge, af, mm, ct⟩ := de
  cases hm : mapFind st.g_callbacks id <;>
    cases tha <;> cases ge <;> cases af <;> cases mm <;> cases ct <;>
      simp [cot_callback_bridge, dispatchAttached, hm]

/-- Dispatch releases no global reference. -/
theorem dispatch_no_releases (st : BridgeState) (th : JniThread) (de : DispatchEnv)
    (id : Nat) (p : Option String) (r : GlobalRef) :
    countReleases (cot_callback_bridge st th de id p).trace r = 0 := by
  obtain ⟨tha⟩ := th
  obtain ⟨ge, af, mm, ct⟩ := de
  cases hm : mapFind st.g_callbacks id <;>
    cases tha <;> cases ge <;> cases af <;> cases mm <;> cases ct <;>
      simp [cot_callback_bridge, dispatchAttached, hm, countReleases,
        string_to_jstring]

/-- A thread that was already attached is never detached by dispatch. -/
theorem dispatch_no_detach_when_attached (st : BridgeState) (th : JniThread)
    (de : DispatchEnv) (id : Nat) (p : Option String) :
    (th.attached && (cot_callback_bridge st th de id p).trace.contains
      Action.detachThread) = false := by
  obtain ⟨tha⟩ := th
  obtain ⟨ge, af, mm, ct⟩ := de
  cases hm : mapFind st.g_callbacks id <;>
    cases tha <;> cases ge <;> cases af <;> cases mm <;> cases ct <;>
      simp [cot_callback_bridge, dispatchAttached, hm]

/-- When the id is registered, the `JNIEnv` is obtained, and `onCotReceived`
resolves, dispatch invokes the callback exactly once, on the registered
global reference, with the connection id and the converted payload. -/
theorem dispatch_delivers (st : BridgeState) (th : JniThread) (de : DispatchEnv)
    (id : Nat) (p : Option String) (ctx : CallbackContext)
    (hreg : mapFind st.g_callbacks id = some ctx)
    (henv : de.getEnvFails = false) (hatt : de.attachFails = false)
    (hmeth : de.methodMissing = false) :
    invocations (cot_callback_bridge st th de id p).trace
      = [(ctx.bridge_instance, id, string_to_jstring p)] := by
  obtain ⟨tha⟩ := th
  obtain ⟨ge, af, mm, ct⟩ := de
  simp only at henv hatt hmeth
  subst henv hatt hmeth
  cases tha <;> cases ct <;>
    simp [cot_callback_bridge, dispatchAttached, hreg, invocations_append,
      invocations]

/-- When the invoked callback throws, the exception is checked and cleared
inside dispatch. -/
theorem dispatch_clears (st : BridgeState) (th : JniThread) (de : DispatchEnv)
    (id : Nat) (p : Option String) (ctx : CallbackContext)
    (hreg : mapFind st.g_callbacks id = some ctx)
    (henv : de.getEnvFails = false) (hatt : de.attachFails = false)
    (hmeth : de.methodMissing = false) (hthrow : de.callbackThrows = true) :
    Action.exceptionCleared ∈ (cot_callback_bridge st th de id p).trace := by
  obtain ⟨tha⟩ := th
  obtain ⟨ge, af, mm, ct⟩ := de
  simp only at henv hatt hmeth hthrow
  subst henv hatt hmeth hthrow
  cases tha <;>
    simp [cot_callback_bridge, dispatchAttached, hreg]

/-- A block of `DeleteGlobalRef` actions neither touches the registry nor
crosses into the runtime, so it is transparent to the lock discipline. -/
theorem lockDiscipline_deletes (m : List (Nat × CallbackContext))
    (rest : List Action) (d : Nat) :
    lockDiscipline
      ((m.map fun q => Action.deleteGlobalRef q.2.bridge_instance) ++ rest) d
      = lockDiscipline rest d := by
  induction m with
  | nil => simp
  | cons hd tl ih =>
      simp [lockDiscipline, registryAction, crossRuntimeAction, ih]

/-! ## Sample concrete data for witnesses -/

def sampleRef : GlobalRef := { refId := 0, target := 5 }

def sampleCtx : CallbackContext := { jvm := 7, bridge_instance := sampleRef }

def sampleRef2 : GlobalRef := { refId := 1, target := 6 }

def sampleCtx2 : CallbackContext := { jvm := 7, bridge_instance := sampleRef2 }

def sampleState : BridgeState :=
  { g_callbacks := [(42, sampleCtx), (43, sampleCtx2)], g_jvm := 7, nextGlobalRef := 2 }

def okEnv : DispatchEnv :=
  { getEnvFails := false, attachFails := false, methodMissing := false,
    callbackThrows := false }

def throwEnv : DispatchEnv :=
  { getEnvFails := false, attachFails := false, methodMissing := false,
    callbackThrows := true }

/-! ## The claims -/

/-- C1: for every connection id registered with a callback context, a single
`dispatch(id, payload)` call — with the `JNIEnv` obtained (attaching if
necessary) and `onCotReceived` resolved — invokes the registered target's
event-delivery method exactly once, with arguments `(id, payload)` where the
payload is the `string_to_jstring` conversion of the native payload. -/
theorem C1_dispatch_invokes_exactly_once (st : BridgeState) (th : JniThread)
    (de : DispatchEnv) (id : Nat) (payload : Option String) (ctx : CallbackContext)
    (hreg : mapFind st.g_callbacks id = some ctx)
    (henv : de.getEnvFails = false) (hatt : de.attachFails = false)
    (hmeth : de.methodMissing = false) :
    invocations (cot_callback_bridge st th de id payload).trace
      = [(ctx.bridge_instance, id, string_to_jstring payload)] :=
  dispatch_delivers st th de id payload ctx hreg henv hatt hmeth

/-- Witness for C1 at id 42, payload `"hello"`, on `sampleState`. -/
theorem C1_witness :
    mapFind sampleState.g_callbacks 42 = some sampleCtx ∧
    invocations (cot_callback_bridge sampleState { attached := false } okEnv 42
        (some "hello")).trace
      = [(sampleCtx.bridge_instance, 42, string_to_jstring (some "hello"))] :=
  ⟨by decide,
   C1_dispatch_invokes_exactly_once sampleState { attached := false } okEnv 42
     (some "hello") sampleCtx (by decide) rfl rfl rfl⟩

/-- C2: `dispatch(id, payload)` for an id with no registry entry is a no-op:
the state and the thread attachment are unchanged, no callback is invoked,
and no fault is raised. -/
theorem C2_unregistered_dispatch_is_noop (st : BridgeState) (th : JniThread)
    (de : DispatchEnv) (id : Nat) (payload : Option String)
    (habs : mapFind st.g_callbacks id = none) :
    (cot_callback_bridge st th de id payload).state = st ∧
    (cot_callback_bridge st th de id payload).thread = th ∧
    invocations (cot_callback_bridge st th de id payload).trace = [] ∧
    (cot_callback_bridge st th de id payload).exceptionPending = false := by
  refine ⟨dispatch_state_eq .., dispatch_thread_eq .., ?_, dispatch_no_pending ..⟩
  simp [cot_callback_bridge, habs, invocations]

/-- Witness for C2 at the never-registered id 99 on `sampleState`. -/
theorem C2_witness :
    (cot_callback_bridge sampleState { attached := true } okEnv 99
        (some "x")).state = sampleState ∧
    (cot_callback_bridge sampleState { attached := true } okEnv 99
        (some "x")).thread = { attached := true } ∧
    invocations (cot_callback_bridge sampleState { attached := true } okEnv 99
        (some "x")).trace = [] ∧
    (cot_callback_bridge sampleState { attached := true } okEnv 99
        (some "x")).exceptionPending = false :=
  C2_unregistered_dispatch_is_noop sampleState { attached := true } okEnv 99
    (some "x") (by decide)

/-- C3: in every `register(id, t)` followed by `unregister(id)`, the global
reference created by the registration is released exactly once across the
two operations' traces. -/
theorem C3_register_then_unregister_releases_once (st : BridgeState)
    (thiz id : Nat) (r1 r2 : Int) :
    countReleases
      ((nativeRegisterCallback st thiz id r1).trace
        ++ (nativeUnregisterCallback (nativeRegisterCallback st thiz id r1).state
              id r2).trace)
      (nativeRegisterCallback st thiz id r1).globalRef = 1 := by
  simp [nativeRegisterCallback, nativeUnregisterCallback, cleanupCallbackEntry,
    mapFind_insert_self, countReleases_append, countReleases]

/-- C4: on every exit path of dispatch, the calling thread's attachment state
on return equals its state before the call, and a thread that was already
attached never sees a detach. -/
theorem C4_attachment_state_restored (st : BridgeState) (th : JniThread)
    (de : DispatchEnv) (id : Nat) (payload : Option String) :
    (cot_callback_bridge st th de id payload).thread = th ∧
    (th.attached && (cot_callback_bridge st th de id payload).trace.contains
      Action.detachThread) = false :=
  ⟨dispatch_thread_eq st th de id payload,
   dispatch_no_detach_when_attached st th de id payload⟩

/-- C5: a Java exception thrown by the invoked callback is cleared inside
dispatch (none is pending on return), the registry is unchanged, and a
subsequent dispatch to any other registered id still delivers its event. -/
theorem C5_callback_fault_contained (st : BridgeState) (th : JniThread)
    (de : DispatchEnv) (id : Nat) (payload : Option String) (ctx : CallbackContext)
    (th2 : JniThread) (de2 : DispatchEnv) (id2 : Nat) (payload2 : Option String)
    (ctx2 : CallbackContext)
    (hreg : mapFind st.g_callbacks id = some ctx)
    (henv : de.getEnvFails = false) (hatt : de.attachFails = false)
    (hmeth : de.methodMissing = false) (hthrow : de.callbackThrows = true)
    (hreg2 : mapFind st.g_callbacks id2 = some ctx2)
    (henv2 : de2.getEnvFails = false) (hatt2 : de2.attachFails = false)
    (hmeth2 : de2.methodMissing = false) :
    (cot_callback_bridge st th de id payload).exceptionPending = false ∧
    Action.exceptionCleared ∈ (cot_callback_bridge st th de id payload).trace ∧
    (cot_callback_bridge st th de id payload).state = st ∧
    invocations (cot_callback_bridge
        (cot_callback_bridge st th de id payload).state th2 de2 id2 payload2).trace
      = [(ctx2.bridge_instance, id2, string_to_jstring payload2)] := by
  refine ⟨dispatch_no_pending ..,
    dispatch_clears st th de id payload ctx hreg henv hatt hmeth hthrow,
    dispatch_state_eq .., ?_⟩
  rw [dispatch_state_eq]
  exact dispatch_delivers st th2 de2 id2 payload2 ctx2 hreg2 henv2 hatt2 hmeth2

/-- Witness for C5: the callback for id 42 throws; id 43 still delivers. -/
theorem C5_witness :
    (cot_callback_bridge sampleState { attached := false } throwEnv 42
        (some "boom")).exceptionPending = false ∧
    Action.exceptionCleared ∈ (cot_callback_bridge sampleState
        { attached := false } throwEnv 42 (some "boom")).trace ∧
    (cot_callback_bridge sampleState { attached := false } throwEnv 42
        (some "boom")).state = sampleState ∧
    invocations (cot_callback_bridge
        (cot_callback_bridge sampleState { attached := false } throwEnv 42
          (some "boom")).state
        { attached := false } okEnv 43 (some "next")).trace
      = [(sampleCtx2.bridge_instance, 43, string_to_jstring (some "next"))] :=
  C5_callback_fault_contained sampleState { attached := false } throwEnv 42
    (some "boom") sampleCtx { attached := false } okEnv 43 (some "next")
    sampleCtx2 (by decide) rfl rfl rfl rfl (by decide) rfl rfl rfl

/-- C6: after `nativeShutdown` clears the registry, every subsequent dispatch
call invokes no callback and leaves the cleared state unchanged, regardless
of which ids were registered before. -/
theorem C6_dispatch_after_shutdown_is_noop (st : BridgeState) (th : JniThread)
    (de : DispatchEnv) (id : Nat) (payload : Option String) :
    invocations (cot_callback_bridge (nativeShutdown st).1 th de id payload).trace
      = [] ∧
    (cot_callback_bridge (nativeShutdown st).1 th de id payload).state
      = (nativeShutdown st).1 := by
  constructor
  · simp [nativeShutdown, cot_callback_bridge, mapFind, invocations]
  · exact dispatch_state_eq ..

/-- C7: a second registration for an id that already has an entry overwrites
it with the current `g_jvm` and a freshly allocated global reference to the
new target, and the register trace contains no release: the prior entry's
reference is leaked. -/
theorem C7_reregister_overwrites_and_leaks (st : BridgeState) (thiz id : Nat)
    (ctxOld : CallbackContext) (coreResult : Int)
    (_hreg : mapFind st.g_callbacks id = some ctxOld)
    (hfresh : ctxOld.bridge_instance.refId < st.nextGlobalRef) :
    mapFind (nativeRegisterCallback st thiz id coreResult).state.g_callbacks id
      = some { jvm := st.g_jvm,
               bridge_instance := { refId := st.nextGlobalRef, target := thiz } } ∧
    (nativeRegisterCallback st thiz id coreResult).globalRef
      ≠ ctxOld.bridge_instance ∧
    (nativeRegisterCallback st thiz id coreResult).trace
      = [Action.lockAcquire,
         Action.newGlobalRef { refId := st.nextGlobalRef, target := thiz },
         Action.registryStore id, Action.lockRelease,
         Action.coreCall CoreFn.coreRegisterCallback] := by
  refine ⟨?_, ?_, rfl⟩
  · simp [nativeRegisterCallback, mapFind_insert_self]
  · intro hcontra
    have h2 := congrArg GlobalRef.refId hcontra
    simp [nativeRegisterCallback] at h2
    omega

/-- Witness for C7: re-register id 42 (already mapped to `sampleCtx`). -/
theorem C7_witness :
    mapFind (nativeRegisterCallback sampleState 8 42 0).state.g_callbacks 42
      = some { jvm := sampleState.g_jvm,
               bridge_instance := { refId := sampleState.nextGlobalRef, target := 8 } } ∧
    (nativeRegisterCallback sampleState 8 42 0).globalRef
      ≠ sampleCtx.bridge_instance ∧
    (nativeRegisterCallback sampleState 8 42 0).trace
      = [Action.lockAcquire,
         Action.newGlobalRef { refId := sampleState.nextGlobalRef, target := 8 },
         Action.registryStore 42, Action.lockRelease,
         Action.coreCall CoreFn.coreRegisterCallback] :=
  C7_reregister_overwrites_and_leaks sampleState 8 42 sampleCtx 0
    (by decide) (by decide)

/-- C8 counterexample: `nativeDisconnect` — an operation the claim's
destroyer set (`removesEntrySpec`: only unregistration and shutdown) does
not contain — removes the registry entry for id 42 and releases its global
reference. -/
theorem C8_counterexample :
    removesEntrySpec (PublicOp.opDisconnect 42 0) 42 = false ∧
    mapFind sampleState.g_callbacks 42 = some sampleCtx ∧
    mapFind (runOp sampleState (PublicOp.opDisconnect 42 0)).1.g_callbacks 42
      = none ∧
    countReleases (runOp sampleState (PublicOp.opDisconnect 42 0)).2
      sampleCtx.bridge_instance = 1 := by
  decide

/-- C8 (amended): a registry entry is destroyed only by
`unregister_callback(id)`, `disconnect(id)` or global `shutdown()`; every
other public operation (and re-registration of a *different* id) leaves the
entry in place and never releases its target reference. Entries are assumed
to hold pairwise distinct references, as every registration allocates a
fresh one. -/
theorem C8_entry_destroyed_only_by_remove_ops (st : BridgeState) (id : Nat)
    (ctx : CallbackContext) (op : PublicOp)
    (hreg : mapFind st.g_callbacks id = some ctx)
    (hdistinct : ∀ q ∈ st.g_callbacks, q.1 ≠ id →
      q.2.bridge_instance ≠ ctx.bridge_instance)
    (hrem : removesEntry op id = false)
    (hover : overwritesEntry op id = false) :
    mapFind (runOp st op).1.g_callbacks id = some ctx ∧
    countReleases (runOp st op).2 ctx.bridge_instance = 0 := by
  cases op with
  | opInit cr => exact ⟨hreg, rfl⟩
  | opConnect h p pr t c k ca cid => exact ⟨hreg, rfl⟩
  | opSendCot id2 p cr => exact ⟨hreg, rfl⟩
  | opGetStatus id2 cr s cf ctf => exact ⟨hreg, rfl⟩
  | opVersion v => exact ⟨hreg, rfl⟩
  | opDispatch th de id2 p =>
      refine ⟨?_, dispatch_no_releases st th de id2 p ctx.bridge_instance⟩
      show mapFind (cot_callback_bridge st th de id2 p).state.g_callbacks id
        = some ctx
      rw [dispatch_state_eq]
      exact hreg
  | opRegister thiz id2 cr =>
      have hne : id2 ≠ id := by simpa [overwritesEntry] using hover
      refine ⟨?_, rfl⟩
      show mapFind (mapInsert st.g_callbacks id2
        { jvm := st.g_jvm,
          bridge_instance := { refId := st.nextGlobalRef, target := thiz } }) id
        = some ctx
      rw [mapFind_insert_ne _ _ _ _ hne]
      exact hreg
  | opUnregister id2 cr =>
      have hne : id2 ≠ id := by simpa [removesEntry] using hrem
      simp only [runOp, nativeUnregisterCallback, cleanupCallbackEntry]
      cases hm : mapFind st.g_callbacks id2 with
      | none => exact ⟨hreg, rfl⟩
      | some ctx2 =>
          have hne2 : ctx2.bridge_instance ≠ ctx.bridge_instance :=
            hdistinct (id2, ctx2) (mapFind_mem _ _ _ hm) hne
          refine ⟨?_, by simp [countReleases, hne2]⟩
          rw [show ({ st with g_callbacks := mapErase st.g_callbacks id2 }
              : BridgeState).g_callbacks = mapErase st.g_callbacks id2 from rfl,
            mapFind_erase_ne _ _ _ hne]
          exact hreg
  | opDisconnect id2 cr =>
      have hne : id2 ≠ id := by simpa [removesEntry] using hrem
      simp only [runOp, nativeDisconnect, cleanupCallbackEntry]
      cases hm : mapFind st.g_callbacks id2 with
      | none => exact ⟨hreg, rfl⟩
      | some ctx2 =>
          have hne2 : ctx2.bridge_instance ≠ ctx.bridge_instance :=
            hdistinct (id2, ctx2) (mapFind_mem _ _ _ hm) hne
          refine ⟨?_, by simp [countReleases, hne2]⟩
          rw [show ({ st with g_callbacks := mapErase st.g_callbacks id2 }
              : BridgeState).g_callbacks = mapErase st.g_callbacks id2 from rfl,
            mapFind_erase_ne _ _ _ hne]
          exact hreg
  | opShutdown => simp [removesEntry] at hrem

/-- Witness for C8 (amended): unregistering id 43 leaves id 42's entry and
reference untouched. -/
theorem C8_witness :
    mapFind (runOp sampleState (PublicOp.opUnregister 43 0)).1.g_callbacks 42
      = some sampleCtx ∧
    countReleases (runOp sampleState (PublicOp.opUnregister 43 0)).2
      sampleCtx.bridge_instance = 0 :=
  C8_entry_destroyed_only_by_remove_ops sampleState 42 sampleCtx
    (PublicOp.opUnregister 43 0) (by decide) (by decide) (by decide) (by decide)

/-- C9: every public operation obeys the mutex discipline — registry lookups
and mutations happen only with `g_callbacks_mutex` held, acquire/release
pairs balance, and no thread attach, callback invocation or detach happens
while the mutex is held (dispatch copies the context out under the lock and
releases it before the cross-runtime sequence). -/
theorem C9_lock_discipline (st : BridgeState) (op : PublicOp) :
    lockDiscipline (runOp st op).2 0 = true := by
  cases op with
  | opInit cr => rfl
  | opConnect h p pr t c k ca cid => rfl
  | opSendCot id p cr => rfl
  | opGetStatus id cr s cf ctf => rfl
  | opVersion v => rfl
  | opDispatch th de id p =>
      obtain ⟨tha⟩ := th
      obtain ⟨ge, af, mm, ct⟩ := de
      cases hm : mapFind st.g_callbacks id <;>
        cases tha <;> cases ge <;> cases af <;> cases mm <;> cases ct <;>
          simp [runOp, cot_callback_bridge, dispatchAttached, hm, lockDiscipline,
            registryAction, crossRuntimeAction, string_to_jstring]
  | opRegister thiz id cr => rfl
  | opUnregister id cr =>
      simp only [runOp, nativeUnregisterCallback, cleanupCallbackEntry]
      cases hm : mapFind st.g_callbacks id <;> rfl
  | opDisconnect id cr =>
      simp only [runOp, nativeDisconnect, cleanupCallbackEntry]
      cases hm : mapFind st.g_callbacks id <;> rfl
  | opShutdown =>
      show lockDiscipline (Action.lockAcquire ::
        ((st.g_callbacks.map fun q => Action.deleteGlobalRef q.2.bridge_instance)
          ++ [Action.registryClear, Action.lockRelease,
              Action.coreCall CoreFn.coreShutdown])) 0 = true
      rw [lockDiscipline, lockDiscipline_deletes]
      rfl

/-- C10: `nativeRegisterCallback` stores the registry entry (with its fresh
global reference) before the `omnitak_register_callback` core call — the
trace is literally store-then-call — and when the core returns a nonzero
failure code the entry and its reference are still in place and the trace
contains no release: registration is not atomic with the failure result. -/
theorem C10_register_entry_survives_core_failure (st : BridgeState)
    (thiz id : Nat) (coreResult : Int) (hfail : coreResult ≠ 0) :
    (nativeRegisterCallback st thiz id coreResult).result = coreResult ∧
    mapFind (nativeRegisterCallback st thiz id coreResult).state.g_callbacks id
      = some { jvm := st.g_jvm,
               bridge_instance :=
                 (nativeRegisterCallback st thiz id coreResult).globalRef } ∧
    (nativeRegisterCallback st thiz id coreResult).trace
      = [Action.lockAcquire,
         Action.newGlobalRef (nativeRegisterCallback st thiz id coreResult).globalRef,
         Action.registryStore id, Action.lockRelease,
         Action.coreCall CoreFn.coreRegisterCallback] := by
  have _ := hfail
  refine ⟨rfl, ?_, rfl⟩
  simp [nativeRegisterCallback, mapFind_insert_self]

/-- Witness for C10: registering id 7 with the core returning failure -1. -/
theorem C10_witness :
    (nativeRegisterCallback sampleState 9 7 (-1)).result = -1 ∧
    mapFind (nativeRegisterCallback sampleState 9 7 (-1)).state.g_callbacks 7
      = some { jvm := sampleState.g_jvm,
               bridge_instance := (nativeRegisterCallback sampleState 9 7 (-1)).globalRef } ∧
    (nativeRegisterCallback sampleState 9 7 (-1)).trace
      = [Action.lockAcquire,
         Action.newGlobalRef (nativeRegisterCallback sampleState 9 7 (-1)).globalRef,
         Action.registryStore 7, Action.lockRelease,
         Action.coreCall CoreFn.coreRegisterCallback] :=
  C10_register_entry_survives_core_failure sampleState 9 7 (-1) (by decide)

end OmniTakJni
